import Mathlib

/-!
Verification of the ironwinrm tag/namespace binding core.

The definitions below are a shallow embedding of the Rust sources:
  crates/protocol/src/cores/namespace.rs  (registry, declarations)
  crates/protocol/src/cores/tag.rs        (Tag, TagVisitor, NodeDeserializer)
  crates/xml/src/builder/attribute.rs     (builder Attribute and its ns_fmt)
  crates/xml/src/lib.rs                   (XmlError)
  crates/xml/src/parser/mod.rs            (visitor / deserializer driver)
Parts of the repository that the core uses but whose files are not present
(cores/attribute.rs, cores/tag_name.rs, cores/tag_value.rs, the builder
Element and namespace types) are modelled from the specification; each such
definition carries a doc comment starting with "Modelled from the spec:".
-/

set_option autoImplicit false

deriving instance DecidableEq for Except

namespace IronWinRM

/-! ## Registry constants (namespace.rs lines 4-23) -/

def PWSH_NAMESPACE : String := "http://schemas.microsoft.com/wbem/wsman/1/windows/shell"

def PWSH_NAMESPACE_ALIAS : String := "rsp"

def POWERSHELL_NAMESPACE : String := "http://schemas.microsoft.com/powershell/Microsoft.PowerShell"

def WSA_NAMESPACE : String := "http://schemas.xmlsoap.org/ws/2004/08/addressing"

def WSA_NAMESPACE_ALIAS : String := "a"

def SOAP_NAMESPACE : String := "http://www.w3.org/2003/05/soap-envelope"

def SOAP_NAMESPACE_ALIAS : String := "s"

def MS_WSMAN_NAMESPACE : String := "http://schemas.microsoft.com/wbem/wsman/1/wsman.xsd"

def MS_WSMAN_NAMESPACE_ALIAS : String := "w"

def WS_MANAGEMENT_NAMESPACE : String := "http://schemas.dmtf.org/wbem/wsman/1/wsman.xsd"

def WS_MANAGEMENT_NAMESPACE_ALIAS : String := "wsman"

def WS_TRANSFER_NAMESPACE : String := "http://schemas.xmlsoap.org/ws/2004/09/transfer"

def WS_TRANSFER_NAMESPACE_ALIAS : String := "x"

/-- The closed set of protocol namespaces (namespace.rs lines 25-34). -/
inductive Namespace where
  | PowerShell
  | RspShell
  | WsAddressing
  | MsWsManagement
  | WsManagement
  | Soap
  | WsTrasfer
deriving DecidableEq

/-- Rust `Namespace::as_tuple` (namespace.rs lines 37-50): canonical URI and
default alias of each variant.  Note that the `PowerShell` arm uses
`PWSH_NAMESPACE` / `PWSH_NAMESPACE_ALIAS`, exactly as in the source, and the
`RspShell` arm uses the identical string literals. -/
def Namespace.as_tuple : Namespace → String × String
  | .PowerShell => (PWSH_NAMESPACE, PWSH_NAMESPACE_ALIAS)
  | .RspShell => ("http://schemas.microsoft.com/wbem/wsman/1/windows/shell", "rsp")
  | .WsAddressing => (WSA_NAMESPACE, WSA_NAMESPACE_ALIAS)
  | .MsWsManagement => (MS_WSMAN_NAMESPACE, MS_WSMAN_NAMESPACE_ALIAS)
  | .WsManagement => (WS_MANAGEMENT_NAMESPACE, WS_MANAGEMENT_NAMESPACE_ALIAS)
  | .Soap => (SOAP_NAMESPACE, SOAP_NAMESPACE_ALIAS)
  | .WsTrasfer => (WS_TRANSFER_NAMESPACE, WS_TRANSFER_NAMESPACE_ALIAS)

/-- Rust `Namespace::url` (namespace.rs lines 52-54). -/
def Namespace.url (n : Namespace) : String := n.as_tuple.1

/-- Rust `Namespace::alias` (namespace.rs lines 56-58). -/
def Namespace.alias (n : Namespace) : String := n.as_tuple.2

/-- Rust `impl TryFrom<&str> for Namespace` (namespace.rs lines 69-84).  The Rust
`match` compares the scrutinee against each constant in order. -/
def Namespace.try_from (value : String) : Except String Namespace :=
  if value = POWERSHELL_NAMESPACE then .ok .PowerShell
  else if value = PWSH_NAMESPACE then .ok .RspShell
  else if value = WSA_NAMESPACE then .ok .WsAddressing
  else if value = MS_WSMAN_NAMESPACE then .ok .MsWsManagement
  else if value = WS_MANAGEMENT_NAMESPACE then .ok .WsManagement
  else if value = SOAP_NAMESPACE then .ok .Soap
  else if value = WS_TRANSFER_NAMESPACE then .ok .WsTrasfer
  else .error "Unknown namespace"

/-! ## Error type and the parsed-node interface -/

/-- Node kinds of the external parser (used by `XmlError.InvalidNodeType`). -/
inductive NodeType where
  | Root
  | Element
  | Text
  | Comment
  | PI
deriving DecidableEq

/-- Rust `XmlError` (xml/src/lib.rs lines 6-34).  Payloads that are foreign
records (the roxmltree parse error) are carried as their rendered text. -/
inductive XmlError where
  | ParserError (msg : String)
  | XmlInvalidNamespace (expected : String) (found : Option String)
  | XmlInvalidTag (expected : String) (found : String)
  | TagCountInvalid (tag : String) (value : Nat)
  | InvalidXml (msg : String)
  | GenericError (msg : String)
  | UnexpectedTag (msg : String)
  | InvalidNodeType (expected : NodeType) (found : NodeType)
deriving DecidableEq

/-- An attribute as exposed by the external parser on a node: name, value and
optional namespace URI. -/
structure NodeAttr where
  name : String
  value : String
  ns : Option String
deriving DecidableEq

/-- A parsed XML node, the read-only collaborator interface of the external
parser (spec section 6): an element exposes its local tag name, its optional
namespace URI, its attributes, the namespace URIs declared on it, and its
children; text and comment nodes carry their text.  The core only reads this
interface. -/
inductive Node where
  | element (name : String) (ns : Option String) (attrs : List NodeAttr)
      (declared : List String) (children : List Node)
  | textNode (s : String)
  | comment (s : String)

/-- Parser interface `is_element()`. -/
def Node.is_element : Node → Bool
  | .element .. => true
  | _ => false

/-- Parser interface `is_text()`. -/
def Node.is_text : Node → Bool
  | .textNode _ => true
  | _ => false

/-- Parser interface `tag_name().name()`; non-elements have the empty name. -/
def Node.name : Node → String
  | .element n .. => n
  | _ => ""

/-- Parser interface `tag_name().namespace()`. -/
def Node.tag_namespace : Node → Option String
  | .element _ ns .. => ns
  | _ => none

/-- Parser interface `attributes()`. -/
def Node.attributes : Node → List NodeAttr
  | .element _ _ as _ _ => as
  | _ => []

/-- Parser interface `namespaces()`: the namespace URIs declared on this
node.  (The Rust record also carries the declared prefix, which the core
never reads: `Namespace::try_from` resolves by `uri()` alone.) -/
def Node.namespaces : Node → List String
  | .element _ _ _ ds _ => ds
  | _ => []

/-- Parser interface `children()`. -/
def Node.children : Node → List Node
  | .element _ _ _ _ cs => cs
  | _ => []

/-- Parser interface: the text carried by a text node. -/
def Node.text : Node → Option String
  | .textNode s => some s
  | _ => none

@[simp] lemma Node.is_element_element (n : String) (ns : Option String) (as : List NodeAttr)
    (ds : List String) (cs : List Node) : (Node.element n ns as ds cs).is_element = true := rfl

@[simp] lemma Node.name_element (n : String) (ns : Option String) (as : List NodeAttr)
    (ds : List String) (cs : List Node) : (Node.element n ns as ds cs).name = n := rfl

@[simp] lemma Node.tag_namespace_element (n : String) (ns : Option String) (as : List NodeAttr)
    (ds : List String) (cs : List Node) : (Node.element n ns as ds cs).tag_namespace = ns := rfl

@[simp] lemma Node.attributes_element (n : String) (ns : Option String) (as : List NodeAttr)
    (ds : List String) (cs : List Node) : (Node.element n ns as ds cs).attributes = as := rfl

@[simp] lemma Node.namespaces_element (n : String) (ns : Option String) (as : List NodeAttr)
    (ds : List String) (cs : List Node) : (Node.element n ns as ds cs).namespaces = ds := rfl

@[simp] lemma Node.children_element (n : String) (ns : Option String) (as : List NodeAttr)
    (ds : List String) (cs : List Node) : (Node.element n ns as ds cs).children = cs := rfl

/-! ## Namespace visitor and NamespaceDeclaration (namespace.rs) -/

/-- Rust `NamespaceVisitor::visit_node` (namespace.rs lines 100-117); the
state is the visitor's `namespace: Option<Namespace>` field. -/
def NamespaceVisitor.visit_node (_st : Option Namespace) (node : Node) :
    Except XmlError (Option Namespace) :=
  match node.tag_namespace with
  | none => .error (.InvalidXml "No namespace found")
  | some ns =>
    match Namespace.try_from ns with
    | .ok k => .ok (some k)
    | .error _ => .error (.InvalidXml ("Unknown namespace: " ++ ns))

/-- Rust `NamespaceVisitor::finish` (namespace.rs lines 119-122). -/
def NamespaceVisitor.finish (st : Option Namespace) : Except XmlError Namespace :=
  match st with
  | some k => .ok k
  | none => .error (.InvalidXml "No namespace found")

/-- Rust `Namespace::from_node`: the default `XmlDeserialize::from_node`
(parser/mod.rs lines 82-84) drives `NodeDeserializer::deserialize`
(parser/mod.rs lines 64-70): visit the root node once, then finish. -/
def Namespace.from_node (node : Node) : Except XmlError Namespace :=
  match NamespaceVisitor.visit_node none node with
  | .ok st => NamespaceVisitor.finish st
  | .error e => .error e

/-- Rust `NamespaceDeclaration` (namespace.rs line 126): an ordered list of
registry entries. -/
structure NamespaceDeclaration where
  namespaces : List Namespace
deriving DecidableEq

/-- Rust `NamespaceDeclaration::new` (namespace.rs lines 135-137). -/
def NamespaceDeclaration.new : NamespaceDeclaration := ⟨[]⟩

/-- Rust `NamespaceDeclaration::push` (namespace.rs lines 143-145): append,
no dedup. -/
def NamespaceDeclaration.push (d : NamespaceDeclaration) (k : Namespace) :
    NamespaceDeclaration := ⟨d.namespaces ++ [k]⟩

/-- The loop of `NamespaceDeclarationVisitor::visit_node` (namespace.rs
lines 162-175): push the registry entry of each declared URI in order,
aborting on the first unrecognized URI.  (The Rust error message
Debug-formats the parser's namespace record; the model renders it by its
URI.) -/
def declLoop (acc : List Namespace) : List String → Except XmlError (List Namespace)
  | [] => .ok acc
  | u :: rest =>
    match Namespace.try_from u with
    | .ok k => declLoop (acc ++ [k]) rest
    | .error _ => .error (.InvalidXml ("Unknown namespace: " ++ u))

/-- Rust `NamespaceDeclaration::from_node` (namespace.rs lines 199-201):
`NodeDeserializer` drives the fresh visitor (empty vector) over the node,
then `finish` (lines 177-179) wraps the collected entries. -/
def NamespaceDeclaration.from_node (node : Node) : Except XmlError NamespaceDeclaration :=
  match declLoop [] node.namespaces with
  | .ok ks => .ok ⟨ks⟩
  | .error e => .error e

/-! ## Builder side: builder namespace, builder attribute, element -/

namespace Builder

/-- Modelled from the spec: the builder `Namespace` type
(crates/xml/src/builder, not under src/) referenced by
`builder::Attribute`; a namespace reference identified by its URI, compared
by value (it is the key of the alias map). -/
structure Namespace where
  uri : String
deriving DecidableEq

/-- Rust builder `Attribute` (builder/attribute.rs lines 4-12): a name/value
pair with an optional builder namespace. -/
structure Attribute where
  name : String
  value : String
  ns : Option Namespace
deriving DecidableEq

/-- The `HashMap::get` of the alias map, modelled as first-match lookup in
an association list keyed by builder namespaces. -/
def aliasGet (m : List (Namespace × String)) (k : Namespace) : Option String :=
  (m.find? (fun p => p.1 == k)).map (fun p => p.2)

/-- Rust `Attribute::ns_fmt` (builder/attribute.rs lines 63-88): with no
alias map supplied at all, the formatter errors; otherwise the namespace
alias is looked up in the map, the name is rendered `alias:name` when an
alias was found and bare otherwise, and the fragment written is
`space name="value"`.  The written fragment is returned, `fmt::Error` is
`Unit`. -/
def Attribute.ns_fmt (a : Attribute) (alias_map : Option (List (Namespace × String))) :
    Except Unit String :=
  match alias_map with
  | none => .error ()
  | some m =>
    let namespace_alias := a.ns.bind (fun ns => aliasGet m ns)
    let name :=
      match namespace_alias with
      | some al => al ++ ":" ++ a.name
      | none => a.name
    .ok (" " ++ name ++ "=\"" ++ a.value ++ "\"")

end Builder

/-- One emission step recorded on a builder element, in builder-call order. -/
inductive Item where
  | decl (uri al : String)
  | attrItem (a : Builder.Attribute)
  | textItem (s : String)
deriving DecidableEq

/-- Modelled from the spec: the builder `Element`
(crates/xml/src/builder, not under src/), the generic serialization target
of section 6: a name, an optional namespace URI, and the sequence of
`add_namespace_declaration` / `add_attribute` / append-text calls recorded
in order.  The claims proved here serialize text-valued tags, so
child-element appends are not needed and not modelled. -/
structure Element where
  name : String
  ns : Option String
  items : List Item
deriving DecidableEq

/-- Builder interface `Element::new(name)`. -/
def Element.new (name : String) : Element := ⟨name, none, []⟩

/-- Builder interface `set_namespace`. -/
def Element.set_namespace (e : Element) (uri : String) : Element :=
  { e with ns := some uri }

/-- Builder interface `add_namespace_declaration(uri, alias)`: appends. -/
def Element.add_namespace_declaration (e : Element) (uri al : String) : Element :=
  { e with items := e.items ++ [.decl uri al] }

/-- Builder interface `add_attribute`: appends. -/
def Element.add_attribute (e : Element) (a : Builder.Attribute) : Element :=
  { e with items := e.items ++ [.attrItem a] }

/-- Builder interface append-text: appends. -/
def Element.append_text (e : Element) (s : String) : Element :=
  { e with items := e.items ++ [.textItem s] }

/-! ## Protocol attribute (cores/attribute.rs, modelled) -/

/-- Modelled from the spec: `cores/attribute.rs` is not under src/.  Per
sections 3 and 4.3 an `Attribute` is a name/value pair optionally tagged
with a registry namespace. -/
structure Attribute where
  name : String
  value : String
  ns : Option Namespace
deriving DecidableEq

/-- Modelled from the spec: `Attribute::from_node` (cores/attribute.rs, not
under src/), the deserialization of one `Attribute` from a node, called by
`TagVisitor::visit_node` (tag.rs line 158) with the whole node.  Following
the attribute scenario of section 8, the model parses the node's first
attribute, resolving a namespaced attribute through the registry; a node
without attributes, or one whose first attribute carries an unrecognized
namespace URI, fails — a failure the caller skips (section 4.5 step 2). -/
def Attribute.from_node (node : Node) : Except XmlError Attribute :=
  match node.attributes with
  | [] => .error (.InvalidXml "No attribute found")
  | a :: _ =>
    match a.ns with
    | none => .ok ⟨a.name, a.value, none⟩
    | some u =>
      match Namespace.try_from u with
      | .ok k => .ok ⟨a.name, a.value, some k⟩
      | .error _ => .error (.InvalidXml ("Unknown namespace: " ++ u))

/-- Modelled from the spec: the `From<cores::Attribute>` conversion into a
builder attribute used by `Tag::into_element` (tag.rs line 75); a registry
namespace converts to the builder namespace carrying its canonical URI. -/
def Attribute.toBuilder (a : Attribute) : Builder.Attribute :=
  ⟨a.name, a.value, a.ns.map (fun k => ⟨k.url⟩)⟩

/-! ## Tag container and its visitor (tag.rs) -/

/-- Modelled from the spec: the `TagName` marker trait (cores/tag_name.rs,
not under src/).  Section 3: a compile-time marker carrying the expected
local tag name and an optional expected namespace; the two associated
constants are embedded as a value parameter. -/
structure TagName where
  TAG_NAME : String
  NAMESPACE : Option String
deriving DecidableEq

/-- Modelled from the spec: the serialization half of the `TagValue`
contract (cores/tag_value.rs, not under src/): a content value appends
itself (text or children) to a builder element (section 4.4). -/
class TagValue (V : Type) where
  append_to_element : V → Element → Element

/-- Rust `XmlDeserialize` (parser/mod.rs lines 74-93), reduced to the
`from_children` entry point the tag visitor invokes on the content type. -/
class XmlDeserialize (V : Type) where
  from_children : List Node → Except XmlError V

/-- Modelled from the spec: the `Text` content value (cores/tag_value.rs,
not under src/): wraps text; serializes by appending its text to the
element; deserializes from children as the text of the text nodes (the
section 8 `wsa:Action` scenario). -/
structure Text where
  text : String
deriving DecidableEq

instance instTagValueText : TagValue Text := ⟨fun t e => e.append_text t.text⟩

instance instXmlDeserializeText : XmlDeserialize Text :=
  ⟨fun cs => .ok ⟨String.join (cs.filterMap Node.text)⟩⟩

/-- Rust `Tag` (tag.rs lines 13-29): a content value, its attributes and its
namespace declarations; the compile-time name binding is a type-level
parameter. -/
structure Tag (V : Type) (N : TagName) where
  value : V
  attributes : List Attribute
  namespaces_declaration : NamespaceDeclaration

/-- Rust `Tag::new` (tag.rs lines 36-44). -/
def Tag.new {V : Type} (N : TagName) (value : V) : Tag V N :=
  ⟨value, [], NamespaceDeclaration.new⟩

/-- Rust `Tag::with_attribute` (tag.rs lines 52-55): push. -/
def Tag.with_attribute {V : Type} {N : TagName} (t : Tag V N) (a : Attribute) : Tag V N :=
  { t with attributes := t.attributes ++ [a] }

/-- Rust `Tag::with_declaration` (tag.rs lines 57-60): push. -/
def Tag.with_declaration {V : Type} {N : TagName} (t : Tag V N) (k : Namespace) : Tag V N :=
  { t with namespaces_declaration := t.namespaces_declaration.push k }

/-- Rust `Tag::into_element` (tag.rs lines 62-79): build the element named
by the binding, set its namespace when the binding has one, add one
namespace declaration per entry of `namespaces_declaration` in order via
`as_tuple`, then add the attributes in order, then let the value append
itself. -/
def Tag.into_element {V : Type} {N : TagName} [TagValue V] (t : Tag V N) : Element :=
  let e := Element.new N.TAG_NAME
  let e :=
    match N.NAMESPACE with
    | some ns => e.set_namespace ns
    | none => e
  let e := t.namespaces_declaration.namespaces.foldl
    (fun e k => e.add_namespace_declaration k.as_tuple.1 k.as_tuple.2) e
  let e := t.attributes.foldl (fun e a => e.add_attribute a.toBuilder) e
  TagValue.append_to_element t.value e

/-- The mutable state of `TagVisitor` (tag.rs lines 96-106); `resolved` is
the Rust field called `namespace` (a Lean keyword). -/
structure TagVisitorState (V : Type) where
  tag : Option V
  attributes : List Attribute
  namespaces : NamespaceDeclaration
  resolved : Option Namespace

/-- The fresh visitor produced by `Tag::visitor()` (tag.rs lines 203-211). -/
def TagVisitorState.init (V : Type) : TagVisitorState V :=
  ⟨none, [], NamespaceDeclaration.new, none⟩

/-- Rust `TagVisitor::visit_node` (tag.rs lines 134-171).  When the node is
an element whose local name equals the binding's expected name, its filtered
children (elements and text only) are deserialized into the content value,
an error aborting the visit; then, once per attribute present on the node,
the whole node is fed to `Attribute::from_node` and a successful parse is
pushed while a failure is skipped; then the node's namespace declarations
are computed, an error aborting the visit; finally the node's own namespace
is resolved, failure tolerated (`.ok()`). -/
def TagVisitor.visit_node {V : Type} [XmlDeserialize V] (N : TagName)
    (st : TagVisitorState V) (node : Node) : Except XmlError (TagVisitorState V) :=
  match (if node.is_element && node.name == N.TAG_NAME then
          (XmlDeserialize.from_children (V := V)
            (node.children.filter (fun c => c.is_element || c.is_text))).map some
         else .ok st.tag) with
  | .error e => .error e
  | .ok tagv =>
    let attrs := node.attributes.foldl
      (fun acc _ =>
        match Attribute.from_node node with
        | .ok a => acc ++ [a]
        | .error _ => acc) st.attributes
    match NamespaceDeclaration.from_node node with
    | .error e => .error e
    | .ok ds => .ok ⟨tagv, attrs, ds, (Namespace.from_node node).toOption⟩

/-- Rust `TagVisitor::finish` (tag.rs lines 181-193): produce the tag when a
content value was recorded, otherwise fail. -/
def TagVisitor.finish {V : Type} (N : TagName) (st : TagVisitorState V) :
    Except XmlError (Tag V N) :=
  match st.tag with
  | some v => .ok ⟨v, st.attributes, st.namespaces⟩
  | none => .error (.InvalidXml "TagVisitor did not find a valid tag")

/-- Rust `Tag::from_node` (tag.rs lines 213-215): `NodeDeserializer`
(tag.rs lines 108-125) drives the fresh visitor over the root node once,
then finishes. -/
def Tag.from_node {V : Type} [XmlDeserialize V] (N : TagName) (node : Node) :
    Except XmlError (Tag V N) :=
  match TagVisitor.visit_node N (TagVisitorState.init V) node with
  | .ok st => TagVisitor.finish N st
  | .error e => .error e

/-- Modelled from the spec: the serialize-then-reparse boundary (data flow
of section 2; formatter and raw parser are the out-of-scope collaborators of
section 6).  Rendering a built element and re-parsing the text yields a node
carrying the element's name and namespace, its attributes (name, value and
namespace URI), the URIs of its namespace declarations in order, and its
appended text as text children. -/
def Element.toNode (e : Element) : Node :=
  .element e.name e.ns
    (e.items.filterMap (fun i =>
      match i with
      | .attrItem a => some ⟨a.name, a.value, a.ns.map (fun n => n.uri)⟩
      | _ => none))
    (e.items.filterMap (fun i =>
      match i with
      | .decl uri _ => some uri
      | _ => none))
    (e.items.filterMap (fun i =>
      match i with
      | .textItem s => some (Node.textNode s)
      | _ => none))

/-! ## Spec-side description of declaration parsing and helper lemmas -/

/-- The specification's wording of declaration parsing (section 4.2): map
each declared URI through the registry, all-or-nothing; failure reports the
unrecognized URI. -/
def specDeclParse : List String → Except String (List Namespace)
  | [] => .ok []
  | u :: rest =>
    match Namespace.try_from u with
    | .ok k => (specDeclParse rest).map (fun ks => k :: ks)
    | .error _ => .error u

lemma declLoop_eq (acc : List Namespace) (us : List String) :
    declLoop acc us =
      match specDeclParse us with
      | .ok ks => .ok (acc ++ ks)
      | .error u => .error (.InvalidXml ("Unknown namespace: " ++ u)) := by
  induction us generalizing acc with
  | nil => simp [declLoop, specDeclParse]
  | cons u rest ih =>
    simp only [declLoop, specDeclParse]
    cases h : Namespace.try_from u with
    | ok k =>
      dsimp only
      rw [ih]
      cases hr : specDeclParse rest with
      | ok ks => simp [Except.map, List.append_assoc]
      | error e => simp [Except.map]
    | error e => rfl

/-! ## Claim theorems -/

/-- C1 counterexample.  The claim "for every Namespace variant k, looking
the canonical URI of k back up via `Namespace::try_from` yields k again" is
false at `k = Namespace.PowerShell`: its `as_tuple` URI is the rsp/shell
URI, which `try_from` resolves to `RspShell`. -/
theorem C1_counterexample :
    Namespace.try_from (Namespace.PowerShell.as_tuple.1) = .ok Namespace.RspShell ∧
    Namespace.try_from (Namespace.PowerShell.as_tuple.1) ≠ .ok Namespace.PowerShell := by
  constructor
  · rfl
  · decide

/-- C1, amended.  For every `Namespace` variant except `PowerShell`, looking
the first component of `as_tuple` (equally, `url`) back up via `try_from`
yields the variant again; `PowerShell`'s canonical URI is the same string as
`RspShell`'s, so it looks up as `RspShell`. -/
theorem C1_registry_roundtrip_amended (k : Namespace) :
    Namespace.try_from k.url =
      .ok (if k = Namespace.PowerShell then Namespace.RspShell else k) := by
  cases k <;> decide

/-- C2 counterexample.  The claim "distinct Namespace variants have distinct
default aliases from `as_tuple`" is false at the pair
`(PowerShell, RspShell)`: both default aliases are `"rsp"`. -/
theorem C2_counterexample :
    Namespace.PowerShell.as_tuple.2 = Namespace.RspShell.as_tuple.2 ∧
    Namespace.PowerShell ≠ Namespace.RspShell := by
  constructor
  · rfl
  · decide

/-- C2, amended.  Two distinct `Namespace` variants returned the same
default alias by `as_tuple` only when they are `PowerShell` and `RspShell`
(in either order), which share the alias `"rsp"`; every other pair of
distinct variants has distinct default aliases. -/
theorem C2_alias_uniqueness_amended (k1 k2 : Namespace) (h : k1 ≠ k2)
    (ha : k1.as_tuple.2 = k2.as_tuple.2) :
    (k1 = Namespace.PowerShell ∧ k2 = Namespace.RspShell) ∨
      (k1 = Namespace.RspShell ∧ k2 = Namespace.PowerShell) := by
  revert h ha
  cases k1 <;> cases k2 <;> decide

theorem C2_alias_uniqueness_amended_witness :
    Namespace.PowerShell ≠ Namespace.RspShell ∧
    Namespace.PowerShell.as_tuple.2 = Namespace.RspShell.as_tuple.2 ∧
    ((Namespace.PowerShell = Namespace.PowerShell ∧ Namespace.RspShell = Namespace.RspShell) ∨
      (Namespace.PowerShell = Namespace.RspShell ∧ Namespace.RspShell = Namespace.PowerShell)) :=
  ⟨by decide, rfl, C2_alias_uniqueness_amended Namespace.PowerShell Namespace.RspShell
    (by decide) rfl⟩

/-- C3 counterexample.  The claim "formatting an Attribute whose namespace
is absent from the supplied alias table fails, never emitting the attribute
unprefixed" is false: against an alias map (here the empty one) that lacks
the attribute's namespace, `ns_fmt` succeeds and emits the attribute
unprefixed. -/
theorem C3_counterexample :
    Builder.Attribute.ns_fmt ⟨"mustUnderstand", "true", some ⟨SOAP_NAMESPACE⟩⟩ (some []) =
      .ok " mustUnderstand=\"true\"" ∧
    Builder.Attribute.ns_fmt ⟨"mustUnderstand", "true", some ⟨SOAP_NAMESPACE⟩⟩ (some []) ≠
      .error () := by
  constructor
  · rfl
  · decide

/-- C3, amended.  `ns_fmt` fails only when no alias map is supplied at all;
when a map is supplied but does not contain the attribute's namespace, the
attribute is emitted unprefixed as `space name="value"`. -/
theorem C3_attr_fmt_amended (name value : String) (ns : Builder.Namespace)
    (m : List (Builder.Namespace × String)) (h : Builder.aliasGet m ns = none) :
    Builder.Attribute.ns_fmt ⟨name, value, some ns⟩ (some m) =
      .ok (" " ++ name ++ "=\"" ++ value ++ "\"") ∧
    Builder.Attribute.ns_fmt ⟨name, value, some ns⟩ none = .error () := by
  constructor
  · simp [Builder.Attribute.ns_fmt, h]
  · rfl

theorem C3_attr_fmt_amended_witness :
    Builder.aliasGet [] ⟨SOAP_NAMESPACE⟩ = none ∧
    (Builder.Attribute.ns_fmt ⟨"Name", "OptimizeEnumeration", some ⟨SOAP_NAMESPACE⟩⟩
        (some []) = .ok " Name=\"OptimizeEnumeration\"" ∧
      Builder.Attribute.ns_fmt ⟨"Name", "OptimizeEnumeration", some ⟨SOAP_NAMESPACE⟩⟩
        none = .error ()) :=
  ⟨rfl, C3_attr_fmt_amended "Name" "OptimizeEnumeration" ⟨SOAP_NAMESPACE⟩ [] rfl⟩

/-- C7.  `NamespaceDeclaration` parsing is all-or-nothing per element: when
every URI declared on the node maps through the registry, construction
succeeds with exactly those entries in document order (the spec-side
`specDeclParse`); when any declared URI is unrecognized, the whole
construction fails with the unknown-namespace error naming the first
unrecognized URI.  The second conjunct records that the construction is
independent of the element's children, i.e. of whether its content would
parse. -/
theorem C7_declaration_all_or_nothing (node : Node) :
    (NamespaceDeclaration.from_node node =
      match specDeclParse node.namespaces with
      | .ok ks => .ok ⟨ks⟩
      | .error u => .error (.InvalidXml ("Unknown namespace: " ++ u))) ∧
    (∀ (name : String) (tns : Option String) (attrs : List NodeAttr)
        (ds : List String) (cs cs' : List Node),
      NamespaceDeclaration.from_node (.element name tns attrs ds cs) =
        NamespaceDeclaration.from_node (.element name tns attrs ds cs')) := by
  constructor
  · unfold NamespaceDeclaration.from_node
    rw [declLoop_eq]
    cases specDeclParse node.namespaces <;> simp
  · intro name tns attrs ds cs cs'
    rfl

/-! ## Concrete bindings and inputs used by the remaining claims -/

/-- The binding with expected local name "Option" and no expected namespace
(the section 8 `wsman:Option` attribute scenario's tag). -/
def NOption : TagName := ⟨"Option", none⟩

/-- The binding with expected local name "To" (section 8 scenario). -/
def NTo : TagName := ⟨"To", none⟩

/-- The binding with expected local name "Action" and expected namespace
WS-Addressing (section 8 scenario). -/
def NActionWsa : TagName := ⟨"Action", some WSA_NAMESPACE⟩

/-- A tag with two distinct namespace-free attributes and a text value. -/
def tagC4 : Tag Text NOption :=
  ((Tag.new NOption ⟨"true"⟩).with_attribute
      ⟨"Name", "OptimizeEnumeration", none⟩).with_attribute ⟨"Type", "bool", none⟩

/-- An element node carrying two distinct attributes and a text child. -/
def nodeC5 : Node :=
  .element "Option" none [⟨"Name", "OptimizeEnumeration", none⟩, ⟨"Type", "bool", none⟩] []
    [.textNode "true"]

/-- An element node whose only attribute fails to parse (its namespace URI
is not in the registry). -/
def nodeC5bad : Node :=
  .element "Option" none [⟨"Id", "1", some "urn:unknown"⟩] [] [.textNode "true"]

/-- An element node whose local name matches `NActionWsa` but whose own
namespace is the SOAP URI, not the expected WS-Addressing URI. -/
def nodeC6 : Node :=
  .element "Action" (some SOAP_NAMESPACE) [] []
    [.textNode "http://schemas.xmlsoap.org/ws/2004/09/transfer/Get"]

/-- C4 (code bug).  Serialize-then-deserialize is not the identity: for the
tag `tagC4` carrying the two distinct attributes `Name` and `Type`,
deserializing the serialized element yields the first attribute twice
(`TagVisitor::visit_node` parses the whole node once per attribute instead
of parsing each attribute), while the content value does round-trip. -/
theorem C4_roundtrip_bug :
    (Tag.from_node (V := Text) NOption (Element.toNode (Tag.into_element tagC4))).map
        (fun t => t.attributes) =
      .ok [⟨"Name", "OptimizeEnumeration", none⟩, ⟨"Name", "OptimizeEnumeration", none⟩] ∧
    (Tag.from_node (V := Text) NOption (Element.toNode (Tag.into_element tagC4))).map
        (fun t => t.value) = .ok ⟨"true"⟩ ∧
    tagC4.attributes = [⟨"Name", "OptimizeEnumeration", none⟩, ⟨"Type", "bool", none⟩] ∧
    ([⟨"Name", "OptimizeEnumeration", none⟩, ⟨"Name", "OptimizeEnumeration", none⟩] :
        List Attribute) ≠ [⟨"Name", "OptimizeEnumeration", none⟩, ⟨"Type", "bool", none⟩] := by
  refine ⟨rfl, rfl, rfl, by decide⟩

/-- C5 (code bug).  Visiting `nodeC5`, which carries the two distinct
attributes `Name` and `Type`, does not collect those two attributes: the
loop in `TagVisitor::visit_node` calls `Attribute::from_node` on the whole
node once per attribute, so the accumulator receives the parse of the node's
first attribute twice.  The skip-on-failure half of the claim does hold: on
`nodeC5bad`, whose only attribute fails to parse, the visit succeeds with no
attributes collected. -/
theorem C5_attribute_collection_bug :
    (Tag.from_node (V := Text) NOption nodeC5).map (fun t => t.attributes) =
      .ok [⟨"Name", "OptimizeEnumeration", none⟩, ⟨"Name", "OptimizeEnumeration", none⟩] ∧
    nodeC5.attributes = [⟨"Name", "OptimizeEnumeration", none⟩, ⟨"Type", "bool", none⟩] ∧
    Attribute.from_node nodeC5 = .ok ⟨"Name", "OptimizeEnumeration", none⟩ ∧
    ([⟨"Name", "OptimizeEnumeration", none⟩, ⟨"Name", "OptimizeEnumeration", none⟩] :
        List Attribute) ≠ [⟨"Name", "OptimizeEnumeration", none⟩, ⟨"Type", "bool", none⟩] ∧
    (Tag.from_node (V := Text) NOption nodeC5bad).map (fun t => t.attributes) = .ok [] := by
  refine ⟨rfl, rfl, rfl, by decide, rfl⟩

/-- C6 counterexample.  The claim "a node whose local name matches but whose
namespace differs from the binding's expected namespace does not produce a
Tag with content" is false: `nodeC6` carries the SOAP namespace while
`NActionWsa` expects WS-Addressing, yet deserialization succeeds and
produces the content value. -/
theorem C6_counterexample :
    Tag.from_node (V := Text) NActionWsa nodeC6 =
      .ok ⟨⟨"http://schemas.xmlsoap.org/ws/2004/09/transfer/Get"⟩, [], ⟨[]⟩⟩ ∧
    nodeC6.tag_namespace = some SOAP_NAMESPACE ∧
    NActionWsa.NAMESPACE = some WSA_NAMESPACE ∧
    SOAP_NAMESPACE ≠ WSA_NAMESPACE := by
  refine ⟨rfl, rfl, rfl, by decide⟩

set_option linter.unusedVariables false in
/-- C6, amended.  The deserializer enforces only the binding's expected
local name: for any binding and any element node whose local name matches,
whose namespace differs from the binding's expected namespace, and whose
(filtered) children deserialize into a content value, construction succeeds
with that content; the expected namespace is not part of runtime tag
identity. -/
theorem C6_name_only_amended {V : Type} [XmlDeserialize V] (N : TagName)
    (name : String) (tns : Option String) (cs : List Node) (v : V)
    (hname : name = N.TAG_NAME)
    (hns : tns ≠ N.NAMESPACE)
    (hv : XmlDeserialize.from_children (V := V)
        (cs.filter (fun c => c.is_element || c.is_text)) = .ok v) :
    Tag.from_node (V := V) N (.element name tns [] [] cs) = .ok ⟨v, [], ⟨[]⟩⟩ := by
  subst hname
  unfold Tag.from_node TagVisitor.visit_node
  simp [NamespaceDeclaration.from_node, declLoop, hv, TagVisitorState.init,
    TagVisitor.finish, NamespaceDeclaration.new, Except.map]

theorem C6_name_only_amended_witness :
    ("Action" : String) = NActionWsa.TAG_NAME ∧
    (some SOAP_NAMESPACE ≠ NActionWsa.NAMESPACE) ∧
    XmlDeserialize.from_children (V := Text)
        (([Node.textNode "x"]).filter (fun c => c.is_element || c.is_text)) = .ok ⟨"x"⟩ ∧
    Tag.from_node (V := Text) NActionWsa
        (.element "Action" (some SOAP_NAMESPACE) [] [] [Node.textNode "x"]) =
      .ok ⟨⟨"x"⟩, [], ⟨[]⟩⟩ :=
  ⟨rfl, by decide, rfl,
    C6_name_only_amended NActionWsa "Action" (some SOAP_NAMESPACE) [Node.textNode "x"] ⟨"x"⟩
      rfl (by decide) rfl⟩

/-- C8 counterexample.  The claim that `finish` without recorded content
fails "with a tag-not-found error whose message names the expected tag" is
false: bound to expected name "To", the error message is the fixed string
"TagVisitor did not find a valid tag", in which "To" does not occur. -/
theorem C8_counterexample :
    TagVisitor.finish (V := Text) NTo (TagVisitorState.init Text) =
      .error (.InvalidXml "TagVisitor did not find a valid tag") ∧
    ¬ ("To".toList <:+: "TagVisitor did not find a valid tag".toList) := by
  exact ⟨rfl, by decide⟩

/-- C8, amended.  For every visitor state, `finish` with no recorded
content value fails with the fixed tag-not-found error "TagVisitor did not
find a valid tag" (which does not name the expected tag); with recorded
content it succeeds and produces the Tag from the accumulator. -/
theorem C8_finish_amended {V : Type} (N : TagName) (st : TagVisitorState V) :
    (st.tag = none →
      TagVisitor.finish N st = .error (.InvalidXml "TagVisitor did not find a valid tag")) ∧
    (∀ v, st.tag = some v →
      TagVisitor.finish N st = .ok ⟨v, st.attributes, st.namespaces⟩) := by
  constructor
  · intro h
    simp [TagVisitor.finish, h]
  · intro v h
    simp [TagVisitor.finish, h]

theorem C8_finish_amended_witness :
    (TagVisitorState.init Text).tag = none ∧
    TagVisitor.finish (V := Text) NTo (TagVisitorState.init Text) =
      .error (.InvalidXml "TagVisitor did not find a valid tag") ∧
    (⟨some ⟨"x"⟩, [], ⟨[]⟩, none⟩ : TagVisitorState Text).tag = some ⟨"x"⟩ ∧
    TagVisitor.finish (V := Text) NTo (⟨some ⟨"x"⟩, [], ⟨[]⟩, none⟩ : TagVisitorState Text) =
      .ok ⟨⟨"x"⟩, [], ⟨[]⟩⟩ :=
  ⟨rfl, (C8_finish_amended NTo (TagVisitorState.init Text)).1 rfl, rfl,
    (C8_finish_amended NTo (⟨some ⟨"x"⟩, [], ⟨[]⟩, none⟩ : TagVisitorState Text)).2 ⟨"x"⟩ rfl⟩

lemma foldl_add_decl (e : Element) (ks : List Namespace) :
    ks.foldl (fun e k => e.add_namespace_declaration k.as_tuple.1 k.as_tuple.2) e =
      ⟨e.name, e.ns, e.items ++ ks.map (fun k => Item.decl k.as_tuple.1 k.as_tuple.2)⟩ := by
  induction ks generalizing e with
  | nil => simp
  | cons k ks ih =>
    rw [List.foldl_cons, ih]
    simp [Element.add_namespace_declaration]

lemma foldl_add_attr (e : Element) (as : List Attribute) :
    as.foldl (fun e a => e.add_attribute a.toBuilder) e =
      ⟨e.name, e.ns, e.items ++ as.map (fun a => Item.attrItem a.toBuilder)⟩ := by
  induction as generalizing e with
  | nil => simp
  | cons a as ih =>
    rw [List.foldl_cons, ih]
    simp [Element.add_attribute]

/-- C9.  `Tag::into_element` emits, in this fixed order: one namespace
declaration per entry of `namespaces_declaration` in its stored order
including duplicates, then the attributes in insertion order, then the
content value's own contribution (here the text of a `Text` value); the
element is named by the binding and carries the binding's namespace.  The
final conjunct is the scenario: pushing kind A twice then kind B yields the
declaration sequence [A, A, B], never merged. -/
theorem C9_into_element_order (N : TagName) (t : Tag Text N) :
    (Tag.into_element t).items =
        t.namespaces_declaration.namespaces.map
          (fun k => Item.decl k.as_tuple.1 k.as_tuple.2) ++
        t.attributes.map (fun a => Item.attrItem a.toBuilder) ++
        [Item.textItem t.value.text] ∧
    (Tag.into_element t).name = N.TAG_NAME ∧
    (Tag.into_element t).ns = N.NAMESPACE ∧
    (∀ (A B : Namespace) (v : Text),
      ((((Tag.new N v).with_declaration A).with_declaration A).with_declaration
          B).namespaces_declaration.namespaces = [A, A, B]) := by
  have base :
      (match N.NAMESPACE with
        | some ns => (Element.new N.TAG_NAME).set_namespace ns
        | none => Element.new N.TAG_NAME) =
        (⟨N.TAG_NAME, N.NAMESPACE, []⟩ : Element) := by
    cases N.NAMESPACE <;> rfl
  refine ⟨?_, ?_, ?_, ?_⟩
  · simp only [Tag.into_element, base, foldl_add_decl, foldl_add_attr, instTagValueText,
      Element.append_text, TagValue.append_to_element]
    simp
  · simp only [Tag.into_element, base, foldl_add_decl, foldl_add_attr, instTagValueText,
      Element.append_text, TagValue.append_to_element]
  · simp only [Tag.into_element, base, foldl_add_decl, foldl_add_attr, instTagValueText,
      Element.append_text, TagValue.append_to_element]
  · intro A B v
    rfl

/-- C10.  A deserialized Tag is independent of the matched node's own
namespace URI: two nodes identical except in their element namespace (which
may be absent, registry-known, or unknown) produce the same `from_node`
result — the namespace resolved into the accumulator is dropped by `finish`
and `Tag` has no field recording it. -/
theorem C10_namespace_independence {V : Type} [XmlDeserialize V] (N : TagName)
    (name : String) (t1 t2 : Option String) (attrs : List NodeAttr)
    (ds : List String) (cs : List Node) :
    Tag.from_node (V := V) N (.element name t1 attrs ds cs) =
      Tag.from_node (V := V) N (.element name t2 attrs ds cs) := by
  unfold Tag.from_node TagVisitor.visit_node
  simp only [Node.is_element_element, Node.name_element, Node.children_element,
    Node.attributes_element, Node.namespaces_element, NamespaceDeclaration.from_node,
    Attribute.from_node, Bool.true_and, TagVisitorState.init]
  by_cases h : name = N.TAG_NAME
  · simp only [h, beq_self_eq_true, if_true]
    cases XmlDeserialize.from_children (V := V)
        (cs.filter (fun c => c.is_element || c.is_text)) with
    | error e => rfl
    | ok v =>
      cases declLoop [] ds with
      | error e => rfl
      | ok ks => rfl
  · have hb : (name == N.TAG_NAME) = false := by
      simp [h]
    simp only [hb, if_false]
    cases declLoop [] ds with
    | error e => rfl
    | ok ks => rfl
